import Mathlib

/-!
Verification of the Nifty Stock Visualizer dashboard (`src/app.py`).

The program is a linear Streamlit script: load a CSV (`load_data`,
memoized by `st.cache_data`), filter the table by a user-chosen
Category, then by a Symbol chosen from that category's symbols, and
render the last 10 rows plus a line chart of closing prices.

This file shallowly embeds that pipeline: a pandas DataFrame of stock
rows becomes a `List StockRecord` in file order; boolean-mask filtering
(`df[df['Category'] == c]`, which in pandas returns a new DataFrame and
never mutates its input) becomes `List.filter`; `Series.unique`
(documented by pandas to return distinct values in order of appearance)
becomes `uniqueFirstSeen`; `DataFrame.tail(10)` becomes `tail10`.
Python exceptions are embedded as `Except PyError`: an `Except.error`
value is an exception propagating out of the code under consideration.
-/

namespace StocksApp

/-- One row of the loaded table: `Date` (already converted to a
chronological value, embedded as `Nat`), `Symbol`, `Category`, `Close`. -/
structure StockRecord where
  date : Nat
  symbol : String
  category : String
  close : Int
deriving DecidableEq, Repr

/-- A DataFrame of stock rows, in file order. -/
abbrev Table := List StockRecord

/-- One raw CSV row before `pd.to_datetime` has run: the date is still a
string. -/
structure RawRecord where
  dateStr : String
  symbol : String
  category : String
  close : Int
deriving DecidableEq, Repr

/-- What lies behind a file path, as seen by `pd.read_csv`:
the file may be absent, unreadable as CSV, or a parsed CSV
(`hasDateCol` records whether a `Date` column is present). -/
inductive FileContent
  | missing
  | malformed
  | csv (hasDateCol : Bool) (rows : List RawRecord)
deriving DecidableEq, Repr

/-- The Python exceptions relevant to `load_data`:
`FileNotFoundError` from `open`, a pandas `ParserError` from
`read_csv`, a `KeyError` from `df['Date']` when the column is absent,
and a date-parsing error from `pd.to_datetime`. -/
inductive PyError
  | fileNotFound
  | parserError
  | keyError
  | dateError
deriving DecidableEq, Repr

/-- `pd.read_csv(path)`: raises `FileNotFoundError` on a missing file,
a parser error on a malformed file, and otherwise yields the raw rows
together with the column information. -/
def read_csv : FileContent → Except PyError (Bool × List RawRecord)
  | .missing => .error .fileNotFound
  | .malformed => .error .parserError
  | .csv h rows => .ok (h, rows)

/-- The numeric value of a decimal digit character. -/
def digitVal (c : Char) : Option Nat :=
  if c.isDigit then some (c.toNat - 48) else none

/-- Reads a run of decimal digits, failing on any other character. -/
def parseDigitsAux : List Char → Nat → Option Nat
  | [], acc => some acc
  | c :: cs, acc =>
    match digitVal c with
    | none => none
    | some d => parseDigitsAux cs (acc * 10 + d)

/-- The embedding's date format: a nonempty string of decimal digits;
anything else is unparsable. -/
def parseDateStr (s : String) : Option Nat :=
  match s.data with
  | [] => none
  | cs => parseDigitsAux cs 0

/-- `pd.to_datetime` applied to one raw row's date string; the embedding
parses decimal date strings and raises on anything else. -/
def parseDate (r : RawRecord) : Except PyError StockRecord :=
  match parseDateStr r.dateStr with
  | some d => .ok ⟨d, r.symbol, r.category, r.close⟩
  | none => .error .dateError

/-- `df['Date'] = pd.to_datetime(df['Date'])`: raises `KeyError` if the
`Date` column is absent, a date error on the first unparsable date, and
otherwise converts every row. -/
def to_datetime (hasDateCol : Bool) : List RawRecord → Except PyError Table
  | [] => if hasDateCol then .ok [] else .error .keyError
  | r :: rs =>
    if hasDateCol then
      match parseDate r with
      | .error e => .error e
      | .ok s =>
        match to_datetime hasDateCol rs with
        | .error e => .error e
        | .ok t => .ok (s :: t)
    else .error .keyError

/-- The body of the `try:` block of `load_data`: read the CSV, then
convert the `Date` column. -/
def load_body (f : FileContent) : Except PyError Table :=
  match read_csv f with
  | .error e => .error e
  | .ok (h, rows) => to_datetime h rows

/-- `load_data(path)` (src/app.py lines 15-28): runs the body and
catches exactly `FileNotFoundError`, turning it into the sentinel
`None` (here `Except.ok none`); every other exception propagates
(`Except.error`). -/
def load_data (f : FileContent) : Except PyError (Option Table) :=
  match load_body f with
  | .ok t => .ok (some t)
  | .error .fileNotFound => .ok none
  | .error e => .error e

/-- `category_df = df[df['Category'] == selected_category]`
(src/app.py line 62). -/
def category_df (df : Table) (c : String) : Table :=
  df.filter (fun r => r.category == c)

/-- `symbol_df = df[df['Symbol'] == selected_symbol]`
(src/app.py line 75). Note: the mask is applied to the full `df`,
not to `category_df`. -/
def symbol_df (df : Table) (s : String) : Table :=
  df.filter (fun r => r.symbol == s)

/-- `Series.unique`: the distinct values of a column in order of first
appearance (pandas documents `unique` as order-of-appearance). -/
def uniqueFirstSeen : List String → List String
  | [] => []
  | a :: l => a :: uniqueFirstSeen (l.filter (fun x => x != a))
termination_by l => l.length
decreasing_by
  simp only [List.length_cons]
  exact Nat.lt_succ_of_le (List.length_filter_le _ _)

/-- `category_list = df['Category'].unique()` (src/app.py line 54). -/
def category_list (df : Table) : List String :=
  uniqueFirstSeen (df.map (fun r => r.category))

/-- `symbol_list = category_df['Symbol'].unique()`
(src/app.py lines 62-64): the symbols of the category-filtered
sub-table. -/
def symbol_list (df : Table) (c : String) : List String :=
  uniqueFirstSeen ((category_df df c).map (fun r => r.symbol))

/-- `symbol_df.tail(10)` (src/app.py line 80): the last 10 rows of a
DataFrame, in the DataFrame's own order. -/
def tail10 (t : Table) : Table :=
  t.drop (t.length - 10)

/-- The hard-coded input path, `file_path = "Nifty_Stocks.csv"`
(src/app.py line 38). -/
def file_path : String := "Nifty_Stocks.csv"

/-- The line chart drawn by `sns.lineplot(x='Date', y='Close',
data=symbol_df)` with `ax.set_title(...)` (src/app.py lines 89-92):
dates on the x-axis, closing prices on the y-axis, titled with the
selected symbol. -/
structure Chart where
  xs : List Nat
  ys : List Int
  title : String
deriving DecidableEq, Repr

/-- The chart the Presenter builds for `symbol_df`. -/
def mkChart (s : String) (sdf : Table) : Chart :=
  { xs := sdf.map (fun r => r.date)
  , ys := sdf.map (fun r => r.close)
  , title := "Closing Price for " ++ s }

/-- What the page shows after one run of the script: the `st.error` and
`st.info` messages emitted, and the table (`st.dataframe`) and chart
(`st.pyplot`) rendered, if any. -/
structure Render where
  errors : List String
  infos : List String
  table : Option Table
  chart : Option Chart
deriving DecidableEq, Repr

/-- The main script body (src/app.py lines 41-100) for one interaction:
load the file, and either render the error page (`st.error` plus
`st.info` naming the path, no table, no chart) when the loader returned
the sentinel, or run the filter pipeline and render the table and
chart. `pickC` and `pickS` stand for the two `st.sidebar.selectbox`
calls: each returns the user's choice from the offered option list.
An uncaught exception (`Except.error`) aborts the run before anything
in this model is rendered. -/
def main_app (fs : String → FileContent)
    (pickC pickS : List String → String) : Except PyError Render :=
  match load_data (fs file_path) with
  | .error e => .error e
  | .ok none =>
    .ok { errors := ["Error: The data file was not found."]
        , infos := ["Please ensure the file is located at the specified path: "
                      ++ file_path]
        , table := none
        , chart := none }
  | .ok (some df) =>
    let selected_category := pickC (category_list df)
    let selected_symbol := pickS (symbol_list df selected_category)
    let sdf := symbol_df df selected_symbol
    .ok { errors := []
        , infos := []
        , table := some (tail10 sdf)
        , chart := some (mkChart selected_symbol sdf) }

/-- The straight-line filtering pipeline of one successful run
(src/app.py lines 41-89), with every intermediate value it binds:
the loaded `df`, `category_df`, `symbol_df`, the tail shown by
`st.dataframe`, and the chart. -/
structure AppView where
  df : Table
  categoryView : Table
  symbolView : Table
  recentView : Table
  chartView : Chart
deriving DecidableEq, Repr

/-- Runs the filter pipeline on a loaded table for a given selection. -/
def runPipeline (t : Table) (c s : String) : AppView :=
  { df := t
  , categoryView := category_df t c
  , symbolView := symbol_df t s
  , recentView := tail10 (symbol_df t s)
  , chartView := mkChart s (symbol_df t s) }

/-- Modelled from the spec: the semantics of the `@st.cache_data`
decorator on `load_data` (the decorator's implementation lives in the
Streamlit framework, not in this repository). The spec: "the result
for a given path is cached for the remainder of the process so
repeated invocations with the same path do not re-read the file."
The cache maps a path to the value the decorated function returned for
it; an exception is not a return value, so it is not cached. -/
structure CacheCall where
  result : Except PyError (Option Table)
  state : List (String × Option Table)
  didRead : Bool
deriving Repr

/-- Modelled from the spec: one invocation of the cached `load_data`.
On a cache hit the stored value is returned and the file is not read;
on a miss the underlying `load_data` runs (reading the file) and a
returned value is stored. -/
def cached_load (fs : String → FileContent)
    (σ : List (String × Option Table)) (path : String) : CacheCall :=
  match σ.lookup path with
  | some v => { result := .ok v, state := σ, didRead := false }
  | none =>
    match load_data (fs path) with
    | .ok v => { result := .ok v, state := (path, v) :: σ, didRead := true }
    | .error e => { result := .error e, state := σ, didRead := true }

/-- Written from the spec's words for C8 ("the distinct values
observed in the full table, in first-seen order"): scan the column
left to right, appending each value not seen before. -/
def seenFold (acc : List String) : List String → List String
  | [] => acc
  | a :: l => seenFold (if a ∈ acc then acc else acc ++ [a]) l

/-- Written from the spec's words for C8: the distinct values of a
column in first-seen order. -/
def distinctFirstSeen (l : List String) : List String :=
  seenFold [] l

/-- Written from the spec's words for C5: an ascending stable insertion
by date, used to say what "calendar-most-recent" would mean. -/
def insertByDate (r : StockRecord) : Table → Table
  | [] => [r]
  | x :: xs => if r.date ≤ x.date then r :: x :: xs else x :: insertByDate r xs

/-- Written from the spec's words for C5: the table re-sorted
chronologically. -/
def sortByDate : Table → Table
  | [] => []
  | r :: rs => insertByDate r (sortByDate rs)

/-- Written from the spec's words for C5: the 10 calendar-most-recent
rows, i.e. the tail of the chronologically sorted table. -/
def calendarRecent10 (t : Table) : Table :=
  tail10 (sortByDate t)

/-- A table in which the same symbol occurs under two categories. -/
def leakTable : Table :=
  [⟨1, "X", "A", 1⟩, ⟨2, "X", "B", 2⟩]

/-- A small sample table in the shape of the spec's scenario:
categories IT and Banking, symbols TCS and INFY under IT. -/
def sampleTable : Table :=
  [ ⟨1, "TCS", "IT", 10⟩
  , ⟨2, "HDFCBANK", "Banking", 20⟩
  , ⟨3, "INFY", "IT", 30⟩
  , ⟨4, "TCS", "IT", 40⟩ ]

/-- An 11-row table that is not in chronological order: its first row
carries the calendar-latest date. -/
def exUnsorted : Table :=
  [ ⟨100, "S", "C", 0⟩
  , ⟨1, "S", "C", 1⟩, ⟨2, "S", "C", 2⟩, ⟨3, "S", "C", 3⟩
  , ⟨4, "S", "C", 4⟩, ⟨5, "S", "C", 5⟩, ⟨6, "S", "C", 6⟩
  , ⟨7, "S", "C", 7⟩, ⟨8, "S", "C", 8⟩, ⟨9, "S", "C", 9⟩
  , ⟨10, "S", "C", 10⟩ ]

/-- A file system in which every path is absent. -/
def fsMissing : String → FileContent := fun _ => .missing

/-- A file system in which the expected path holds a well-formed CSV. -/
def fsSample : String → FileContent :=
  fun _ => .csv true [⟨"1", "TCS", "IT", 10⟩]

/-- A default selection: the first offered option. -/
def pick0 : List String → String := fun l => l.headD ""

/-- The page the script renders when the file is absent. -/
def errRender : Render :=
  { errors := ["Error: The data file was not found."]
  , infos := ["Please ensure the file is located at the specified path: "
                ++ file_path]
  , table := none
  , chart := none }

/-! ## Helper lemmas -/

/-- Membership in the category-filtered table. -/
lemma mem_category_df {t : Table} {c : String} {r : StockRecord} :
    r ∈ category_df t c ↔ r ∈ t ∧ r.category = c := by
  simp [category_df, List.mem_filter]

/-- Membership in the symbol-filtered table. -/
lemma mem_symbol_df {t : Table} {s : String} {r : StockRecord} :
    r ∈ symbol_df t s ↔ r ∈ t ∧ r.symbol = s := by
  simp [symbol_df, List.mem_filter]

/-- Row multiplicities in the category-filtered table. -/
lemma count_category_df (t : Table) (c : String) (r : StockRecord) :
    (category_df t c).count r = if r.category = c then t.count r else 0 := by
  by_cases h : r.category = c
  · rw [if_pos h]
    exact List.count_filter (by simp [h])
  · rw [if_neg h]
    refine List.count_eq_zero.mpr ?_
    simp [category_df, List.mem_filter, h]

/-- The length of the recent-rows view. -/
lemma length_tail10 (t : Table) : (tail10 t).length = min 10 t.length := by
  simp only [tail10, List.length_drop]
  omega

/-- `to_datetime` never raises `FileNotFoundError`. -/
lemma to_datetime_ne_fileNotFound (h : Bool) (rows : List RawRecord) :
    to_datetime h rows ≠ .error .fileNotFound := by
  induction rows with
  | nil =>
    by_cases hb : h <;> simp [to_datetime, hb]
  | cons r rs ih =>
    by_cases hb : h
    · simp only [to_datetime, hb, if_true]
      cases hp : parseDate r with
      | error e =>
        have : e = .dateError := by
          unfold parseDate at hp
          cases hr : parseDateStr r.dateStr <;> simp_all
        simp [this]
      | ok s =>
        subst hb
        cases hrs : to_datetime true rs with
        | error e => simp_all
        | ok t => simp [hrs]
    · simp [to_datetime, hb]

/-- The `try:` body raises `FileNotFoundError` exactly on a missing
file. -/
lemma load_body_fileNotFound_iff (f : FileContent) :
    load_body f = .error .fileNotFound ↔ f = .missing := by
  cases f with
  | missing => simp [load_body, read_csv]
  | malformed => simp [load_body, read_csv]
  | csv h rows =>
    simp only [load_body, read_csv]
    constructor
    · intro hc
      exact absurd hc (to_datetime_ne_fileNotFound h rows)
    · intro hc
      exact absurd hc (by simp)

/-- `Series.unique` keeps exactly the values of the column. -/
lemma mem_uniqueFirstSeen {x : String} :
    ∀ {l : List String}, x ∈ uniqueFirstSeen l ↔ x ∈ l := by
  intro l
  induction l using uniqueFirstSeen.induct with
  | case1 => simp [uniqueFirstSeen]
  | case2 a l ih =>
    rw [uniqueFirstSeen]
    simp only [List.mem_cons, ih, List.mem_filter, bne_iff_ne]
    constructor
    · rintro (rfl | ⟨h, _⟩)
      · simp
      · simp [h]
    · rintro (rfl | h)
      · simp
      · by_cases hxa : x = a
        · simp [hxa]
        · exact Or.inr ⟨h, hxa⟩

/-- `Series.unique` yields each value once. -/
lemma nodup_uniqueFirstSeen : ∀ l : List String, (uniqueFirstSeen l).Nodup := by
  intro l
  induction l using uniqueFirstSeen.induct with
  | case1 => simp [uniqueFirstSeen]
  | case2 a l ih =>
    rw [uniqueFirstSeen]
    refine List.nodup_cons.mpr ⟨?_, ih⟩
    rw [mem_uniqueFirstSeen]
    simp

/-- Removing the values already in `acc ++ [a]` removes the values in
`acc` and then the value `a`. -/
lemma filter_not_mem_append (l acc : List String) (a : String) :
    l.filter (fun x => decide (x ∉ acc ++ [a])) =
      (l.filter (fun x => decide (x ∉ acc))).filter (fun x => x != a) := by
  rw [List.filter_filter]
  refine List.filter_congr ?_
  intro x _
  by_cases hxa : x = a
  · simp [hxa]
  · by_cases hxacc : x ∈ acc <;> simp [hxa, hxacc]

/-- The left-to-right scan, started from the values `acc` already
observed, appends exactly the first occurrences of the unseen values. -/
lemma seenFold_eq (l : List String) : ∀ acc,
    seenFold acc l = acc ++ uniqueFirstSeen (l.filter (fun x => decide (x ∉ acc))) := by
  induction l with
  | nil => intro acc; simp [seenFold, uniqueFirstSeen]
  | cons a l ih =>
    intro acc
    by_cases h : a ∈ acc
    · rw [seenFold, if_pos h, ih]
      congr 2
      simp [List.filter_cons, h]
    · rw [seenFold, if_neg h, ih]
      have hfa : (a :: l).filter (fun x => decide (x ∉ acc)) =
          a :: l.filter (fun x => decide (x ∉ acc)) := by
        simp [List.filter_cons, h]
      rw [hfa, uniqueFirstSeen, List.append_assoc, List.singleton_append,
        ← filter_not_mem_append]

/-- The spec-side reading of `unique` (scan, recording each new value)
agrees with the embedding of pandas `Series.unique`. -/
lemma distinctFirstSeen_eq_uniqueFirstSeen (l : List String) :
    distinctFirstSeen l = uniqueFirstSeen l := by
  rw [distinctFirstSeen, seenFold_eq]
  simp

/-- The loader returns the sentinel exactly on a missing file. -/
lemma load_data_none_iff (f : FileContent) :
    load_data f = .ok none ↔ f = .missing := by
  unfold load_data
  cases hb : load_body f with
  | ok t => simp [← load_body_fileNotFound_iff, hb]
  | error e =>
    cases e <;>
      simp_all [← load_body_fileNotFound_iff, hb]

/-- On the sentinel, the script renders the error page. -/
lemma main_app_of_none (fs : String → FileContent)
    (pickC pickS : List String → String)
    (h : load_data (fs file_path) = .ok none) :
    main_app fs pickC pickS = .ok errRender := by
  unfold main_app
  rw [h]
  rfl

/-- On a loaded table, the script renders the table and the chart and
no messages. -/
lemma main_app_of_some (fs : String → FileContent)
    (pickC pickS : List String → String) (df : Table)
    (h : load_data (fs file_path) = .ok (some df)) :
    main_app fs pickC pickS =
      .ok { errors := []
          , infos := []
          , table := some (tail10 (symbol_df df
              (pickS (symbol_list df (pickC (category_list df))))))
          , chart := some (mkChart
              (pickS (symbol_list df (pickC (category_list df))))
              (symbol_df df (pickS (symbol_list df (pickC (category_list df)))))) } := by
  unfold main_app
  rw [h]

/-! ## Claim theorems -/

/-- C1 (counterexample): the Symbol Filter is applied to the full table
(src/app.py line 75), so with symbol `X` present under categories `A`
and `B`, selecting category `A` offers `X`, yet the symbol-filtered
output contains the category-`B` row, which lies outside the Category
Filter(`A`) output. -/
theorem C1_counterexample :
    "X" ∈ symbol_list leakTable "A" ∧
    (⟨2, "X", "B", 2⟩ : StockRecord) ∈ symbol_df leakTable "X" ∧
    (⟨2, "X", "B", 2⟩ : StockRecord).category ≠ "A" ∧
    (⟨2, "X", "B", 2⟩ : StockRecord) ∉ category_df leakTable "A" := by
  refine ⟨mem_uniqueFirstSeen.mpr (by decide), by decide, by decide, by decide⟩

/-- C1 (amended): every row of the Symbol Filter output has
Symbol == S; and whenever S occurs only under category C in the table,
every output row also has Category == C and lies in the Category
Filter(C) output. -/
theorem C1_symbol_filter_amended (t : Table) (c s : String) :
    (∀ r ∈ symbol_df t s, r.symbol = s) ∧
    ((∀ r ∈ t, r.symbol = s → r.category = c) →
      ∀ r ∈ symbol_df t s, r.category = c ∧ r ∈ category_df t c) := by
  constructor
  · intro r hr
    exact (mem_symbol_df.mp hr).2
  · intro h r hr
    obtain ⟨hrt, hrs⟩ := mem_symbol_df.mp hr
    have hc := h r hrt hrs
    exact ⟨hc, mem_category_df.mpr ⟨hrt, hc⟩⟩

/-- C1 (witness): on the sample table, where TCS occurs only under IT,
the amended theorem places the TCS row inside the IT sub-table. -/
theorem C1_symbol_filter_amended_witness :
    (⟨1, "TCS", "IT", 10⟩ : StockRecord).category = "IT" ∧
    (⟨1, "TCS", "IT", 10⟩ : StockRecord) ∈ category_df sampleTable "IT" :=
  (C1_symbol_filter_amended sampleTable "IT" "TCS").2 (by decide)
    ⟨1, "TCS", "IT", 10⟩ (by decide)

/-- C2: the Category Filter output contains exactly the input rows whose
Category equals the given value (same membership and same
multiplicities), and an absent category yields the empty table. -/
theorem C2_category_filter_exact (t : Table) (c : String) :
    (∀ r, r ∈ category_df t c ↔ r ∈ t ∧ r.category = c) ∧
    (∀ r, (category_df t c).count r = if r.category = c then t.count r else 0) ∧
    (c ∉ t.map (fun r => r.category) → category_df t c = []) := by
  refine ⟨fun r => mem_category_df, fun r => count_category_df t c r, fun h => ?_⟩
  rw [category_df, List.filter_eq_nil_iff]
  intro r hr
  simp only [beq_iff_eq]
  intro hc
  exact h (List.mem_map.mpr ⟨r, hr, hc⟩)

/-- C2 (witness): the sample table has no category `Auto`, and filtering
by it yields the empty table. -/
theorem C2_category_filter_exact_witness :
    category_df sampleTable "Auto" = [] :=
  (C2_category_filter_exact sampleTable "Auto").2.2 (by decide)

/-- C4: the recent-rows view has at most 10 rows, never more rows than
the filtered table; a table of fewer than 10 rows is shown whole. -/
theorem C4_recent_rows_at_most_ten (t : Table) :
    (tail10 t).length ≤ 10 ∧ (tail10 t).length ≤ t.length ∧
    (t.length < 10 → tail10 t = t) := by
  refine ⟨?_, ?_, fun h => ?_⟩
  · rw [length_tail10]; omega
  · rw [length_tail10]; omega
  · rw [tail10]
    have h0 : t.length - 10 = 0 := by omega
    rw [h0, List.drop_zero]

/-- C4 (witness): the 4-row sample table is shown whole. -/
theorem C4_recent_rows_at_most_ten_witness :
    tail10 sampleTable = sampleTable :=
  (C4_recent_rows_at_most_ten sampleTable).2.2 (by decide)

/-- C5: the recent-rows view is the final segment (a suffix of length
min 10 n) of the filtered table in file order, with no re-sort by date;
on a file not in chronological order it differs from the
calendar-most-recent rows. -/
theorem C5_recent_rows_are_file_order_tail :
    (∀ t : Table, tail10 t <:+ t ∧ (tail10 t).length = min 10 t.length) ∧
    tail10 exUnsorted ≠ calendarRecent10 exUnsorted := by
  refine ⟨fun t => ⟨List.drop_suffix _ _, length_tail10 t⟩, ?_⟩
  decide

/-- C9: the filtering pipeline leaves the loaded table untouched, and
re-running it on that table reproduces the same views. -/
theorem C9_pipeline_preserves_df (t : Table) (c s : String) :
    (runPipeline t c s).df = t ∧
    runPipeline ((runPipeline t c s).df) c s = runPipeline t c s :=
  ⟨rfl, rfl⟩

/-- C10: both filters return the order-preserving subsequence of their
input satisfying the predicate (sublists of the input with the expected
membership), and the recent-rows view is in turn a sublist of the
symbol-filtered table, so file order flows through the pipeline. -/
theorem C10_filters_order_stable (t : Table) (c s : String) :
    List.Sublist (category_df t c) t ∧
    List.Sublist (symbol_df t s) t ∧
    List.Sublist (runPipeline t c s).recentView (symbol_df t s) ∧
    (∀ r, r ∈ category_df t c ↔ r ∈ t ∧ r.category = c) ∧
    (∀ r, r ∈ symbol_df t s ↔ r ∈ t ∧ r.symbol = s) := by
  refine ⟨List.filter_sublist t, List.filter_sublist t, ?_,
    fun r => mem_category_df, fun r => mem_symbol_df⟩
  show List.Sublist (tail10 (symbol_df t s)) (symbol_df t s)
  exact (List.drop_suffix _ _).sublist

/-- C3: the Loader returns the sentinel (`.ok none`) exactly when the
file is missing; it never lets `FileNotFoundError` escape; every other
failure of the `try:` body propagates unchanged; and a successful body
is returned wrapped in the sentinel-free result. -/
theorem C3_loader_catches_only_missing_file (f : FileContent) :
    (load_data f = .ok none ↔ f = .missing) ∧
    load_data f ≠ .error .fileNotFound ∧
    (∀ e, load_body f = .error e → e ≠ .fileNotFound → load_data f = .error e) ∧
    (∀ t, load_body f = .ok t → load_data f = .ok (some t)) := by
  refine ⟨load_data_none_iff f, ?_, ?_, ?_⟩
  · unfold load_data
    cases hb : load_body f with
    | ok t => simp
    | error e => cases e <;> simp
  · intro e hb he
    unfold load_data
    rw [hb]
    cases e with
    | fileNotFound => exact absurd rfl he
    | parserError => rfl
    | keyError => rfl
    | dateError => rfl
  · intro t hb
    unfold load_data
    rw [hb]

/-- C3 (witness): a malformed CSV makes the loader propagate the parser
error rather than return the sentinel. -/
theorem C3_loader_catches_only_missing_file_witness :
    load_data .malformed = .error .parserError :=
  (C3_loader_catches_only_missing_file .malformed).2.2.1 .parserError rfl
    (by decide)

/-- C6: for a path whose load succeeds, the first cached invocation
reads the file, and a second invocation with the same path returns the
identical contents without reading the file again. -/
theorem C6_memoized_load (fs : String → FileContent) (p : String)
    (v : Option Table) (h : load_data (fs p) = .ok v) :
    (cached_load fs [] p).result = .ok v ∧
    (cached_load fs [] p).didRead = true ∧
    (cached_load fs (cached_load fs [] p).state p).result = .ok v ∧
    (cached_load fs (cached_load fs [] p).state p).didRead = false := by
  have h1 : cached_load fs [] p =
      { result := .ok v, state := [(p, v)], didRead := true } := by
    unfold cached_load
    rw [show List.lookup p ([] : List (String × Option Table)) = none from rfl, h]
  have h2 : cached_load fs [(p, v)] p =
      { result := .ok v, state := [(p, v)], didRead := false } := by
    unfold cached_load
    rw [show List.lookup p [(p, v)] = some v from by simp [List.lookup]]
  rw [h1, h2]
  exact ⟨rfl, rfl, rfl, rfl⟩

/-- C6 (witness): with the expected file present and well-formed, the
second cached load returns the same table and performs no read. -/
theorem C6_memoized_load_witness :
    (cached_load fsSample [] file_path).result = .ok (some [⟨1, "TCS", "IT", 10⟩]) ∧
    (cached_load fsSample [] file_path).didRead = true ∧
    (cached_load fsSample (cached_load fsSample [] file_path).state file_path).result
      = .ok (some [⟨1, "TCS", "IT", 10⟩]) ∧
    (cached_load fsSample (cached_load fsSample [] file_path).state file_path).didRead
      = false :=
  C6_memoized_load fsSample file_path (some [⟨1, "TCS", "IT", 10⟩]) rfl

/-- C7: a completed render shows an error or info message if and only
if the file is missing; in that case it is exactly the error page (the
static error, the hint naming the expected path, no table, no chart);
otherwise there are no messages and both the table and the chart are
rendered. -/
theorem C7_error_page_iff_missing (fs : String → FileContent)
    (pickC pickS : List String → String) (r : Render)
    (h : main_app fs pickC pickS = .ok r) :
    ((r.errors ≠ [] ∨ r.infos ≠ []) ↔ fs file_path = .missing) ∧
    (fs file_path = .missing → r = errRender) ∧
    (fs file_path ≠ .missing →
      r.errors = [] ∧ r.infos = [] ∧ r.table ≠ none ∧ r.chart ≠ none) := by
  cases hl : load_data (fs file_path) with
  | error e =>
    rw [main_app, hl] at h
    cases h
  | ok o =>
    cases o with
    | none =>
      have hm : fs file_path = .missing := (load_data_none_iff _).mp hl
      have hr := (main_app_of_none fs pickC pickS hl).symm.trans h
      injection hr with hr
      subst hr
      refine ⟨?_, fun _ => rfl, fun hn => absurd hm hn⟩
      simp [errRender, hm]
    | some df =>
      have hm : fs file_path ≠ .missing := by
        intro hmm
        rw [(load_data_none_iff _).mpr hmm] at hl
        cases hl
      have hr := (main_app_of_some fs pickC pickS df hl).symm.trans h
      injection hr with hr
      subst hr
      refine ⟨?_, fun hmm => absurd hmm hm, fun _ => ⟨rfl, rfl, by simp, by simp⟩⟩
      simp [hm]

/-- C7 (witness): with every path absent, the script renders exactly
the error page, which carries no table and no chart. -/
theorem C7_error_page_iff_missing_witness :
    (errRender.errors ≠ [] ∨ errRender.infos ≠ []) ∧
    errRender.table = none ∧ errRender.chart = none := by
  have h := C7_error_page_iff_missing fsMissing pick0 pick0 errRender
    (main_app_of_none fsMissing pick0 pick0 rfl)
  exact ⟨h.1.mpr rfl, rfl, rfl⟩

/-- C8: the selectable categories are exactly the distinct Category
values of the full table in first-seen order, and the selectable
symbols are exactly the distinct Symbol values of the category-filtered
sub-table in first-seen order (each list duplicate-free and agreeing
with the spec-side first-seen scan). -/
theorem C8_selectable_options (t : Table) (c : String) :
    category_list t = distinctFirstSeen (t.map (fun r => r.category)) ∧
    symbol_list t c = distinctFirstSeen ((category_df t c).map (fun r => r.symbol)) ∧
    (∀ x, x ∈ category_list t ↔ x ∈ t.map (fun r => r.category)) ∧
    (∀ x, x ∈ symbol_list t c ↔ x ∈ (category_df t c).map (fun r => r.symbol)) ∧
    (category_list t).Nodup ∧ (symbol_list t c).Nodup :=
  ⟨(distinctFirstSeen_eq_uniqueFirstSeen _).symm,
    (distinctFirstSeen_eq_uniqueFirstSeen _).symm,
    fun _ => mem_uniqueFirstSeen, fun _ => mem_uniqueFirstSeen,
    nodup_uniqueFirstSeen _, nodup_uniqueFirstSeen _⟩

end StocksApp
